import Mathlib

/-!
# Datastream persistence layer of `gost` (package `postgis`)

A shallow embedding of `database/postgis/datastream.go`.  Two revisions of the
file are embedded:

* `Postgis`        : `src/src/database/postgis/datastream.go`
* `PostgisLegacy`  : `src/database/postgis/datastream.go`

The store (`*sql.DB`) is an explicit state of type `σ` that is threaded through
every call, together with a trace of the calls made to it.  Go results
`(value, error)` are pairs of options, `nil` being `none`.  A run-time panic is
an explicit outcome.
-/

deriving instance DecidableEq for Except

namespace Gost

/-! ## Go standard library: `strconv` -/

/-- The two error values a `*strconv.NumError` can carry: `ErrSyntax` and `ErrRange`. -/
inductive NumErrKind
| malformed
| outOfRange
deriving DecidableEq, Repr

/-- Errors of the driver and of `database/sql`; the text is the message. -/
structure DbError where
  msg : String
deriving DecidableEq, Repr

/-- The dynamic types of the `error` values this file handles. -/
inductive GoError
| numError (fn : String) (num : String) (kind : NumErrKind)
| requestNotFound (msg : String)
| badRequest (msg : String)
| db (e : DbError)
| json (msg : String)
deriving DecidableEq, Repr

/-- Size of `int` in bits (`strconv.IntSize`). -/
def intSize : Nat := 64

/-- Loop of `strconv.ParseUint` for base 10 and bit size 64: `none` is a
malformed digit, `some none` an overflow of `uint64`, `some (some n)` the value. -/
def parseUintLoop : List Char → Nat → Option (Option Nat)
| [], n => some (some n)
| c :: cs, n =>
  if '0' ≤ c ∧ c ≤ '9' then
    if n ≥ (2 ^ 64 - 1) / 10 + 1 then some none
    else
      let n1 := n * 10 + (c.toNat - '0'.toNat)
      if n1 > 2 ^ 64 - 1 then some none
      else parseUintLoop cs n1
  else none

/-- Model of `strconv.Atoi` (that is `ParseInt(s, 10, 0)`): an optional sign followed
by one or more decimal digits, the value within the range of `int`.  The error is
the `*strconv.NumError` with the whole text as `Num`. -/
def Atoi (s : String) : Except GoError Int :=
  match s.toList with
  | [] => .error (.numError "Atoi" s .malformed)
  | c :: cs =>
    let neg := c == '-'
    let digits := if c == '+' ∨ c == '-' then cs else c :: cs
    match digits with
    | [] => .error (.numError "Atoi" s .malformed)
    | _ :: _ =>
      match parseUintLoop digits 0 with
      | none => .error (.numError "Atoi" s .malformed)
      | some none => .error (.numError "Atoi" s .outOfRange)
      | some (some un) =>
        if ¬ neg ∧ un ≥ 2 ^ (intSize - 1) then .error (.numError "Atoi" s .outOfRange)
        else if neg ∧ un > 2 ^ (intSize - 1) then .error (.numError "Atoi" s .outOfRange)
        else .ok (if neg then - (un : Int) else (un : Int))

/-- Model of `strconv.Itoa`: the decimal text of an `int`. -/
def Itoa (n : Int) : String :=
  match n with
  | .ofNat m => Nat.repr m
  | .negSucc m => "-" ++ Nat.repr (m + 1)

/-! ## Entities (`sensorthings/entities`): the fields this file reads or writes -/

/-- A Go `map[string]interface{}` with values in `V`: the nil map, or its entries
(one per key). -/
inductive GoMap (V : Type)
| nil
| mk (entries : List (String × V))
deriving DecidableEq, Repr

/-- Go `len` on a map: zero for the nil map. -/
def GoMap.len {V : Type} : GoMap V → Nat
| .nil => 0
| .mk es => es.length

/-- The `ID` field of `entities.Thing`. -/
structure Thing where
  ID : String
deriving DecidableEq, Repr

/-- The `ID` field of `entities.Sensor`. -/
structure Sensor where
  ID : String
deriving DecidableEq, Repr

/-- The `ID` field of `entities.ObservedProperty`. -/
structure ObservedProperty where
  ID : String
deriving DecidableEq, Repr

/-- The type `entities.Datastream`; the three associations are pointers. -/
structure Datastream (V : Type) where
  ID : String
  Description : String
  UnitOfMeasurement : GoMap V
  ObservedArea : GoMap V
  Thing : Option Thing
  Sensor : Option Sensor
  ObservedProperty : Option ObservedProperty
deriving DecidableEq, Repr

/-- The zero value `entities.Datastream{}`. -/
def Datastream.zero {V : Type} : Datastream V :=
  { ID := "", Description := "", UnitOfMeasurement := .nil, ObservedArea := .nil,
    Thing := none, Sensor := none, ObservedProperty := none }

/-! ## The store: `database/sql` -/

/-- A value bound to a placeholder `$n`; a `[]byte` may be nil. -/
inductive SqlArg
| int (i : Int)
| str (s : String)
| bytes (b : Option String)
deriving DecidableEq, Repr

/-- A statement as handed to the store: its text and its bound values. -/
structure Stmt where
  sql : String
  args : List SqlArg
deriving DecidableEq, Repr

/-- The four columns `rows.Scan(&id, &description, &unitofmeasurement, &observedarea)`
fills; `observedarea` is a `*string`, nil for SQL NULL. -/
structure ScannedRow where
  id : Int
  description : String
  unitofmeasurement : String
  observedarea : Option String
deriving DecidableEq, Repr

/-- A result cursor (`*sql.Rows`, not nil): for each row in turn what `Scan` into
the four destinations gives.  `rows.Next()` is true exactly while a row remains;
the code never consults `rows.Err()`. -/
abbrev Cursor := List (Except DbError ScannedRow)

/-- The store behind a `*sql.DB`, over a state `σ`.  `Query` is `db.Query`,
`Exec` is `db.Exec` (the `sql.Result` is never read), and the three `QueryRow...`
fields are `db.QueryRow(...).Scan(...)` for the destinations this file scans into:
an `int`, a `bool`, and the four datastream columns. -/
structure SqlDB (σ : Type) where
  Query : Stmt → σ → Except DbError Cursor × σ
  QueryRowInt : Stmt → σ → Except DbError Int × σ
  QueryRowBool : Stmt → σ → Except DbError Bool × σ
  QueryRowDatastream : Stmt → σ → Except DbError ScannedRow × σ
  Exec : Stmt → σ → Option DbError × σ

/-- What an observer of one operation sees, in order: the calls to the existence
collaborators and the statements handed to the store. -/
inductive Event
| thingExists (id : Int)
| sensorExists (id : Int)
| observedPropertyExists (id : Int)
| query (s : Stmt)
| queryRow (s : Stmt)
| exec (s : Stmt)
deriving DecidableEq, Repr

/-- Whether an event hands a statement to the store. -/
def Event.isStatement : Event → Bool
| .query _ => true
| .queryRow _ => true
| .exec _ => true
| _ => false

/-- The store state and the trace of events so far (oldest first). -/
structure World (σ : Type) where
  store : σ
  trace : List Event

/-- Result of running Go code: it returns, or it panics. -/
inductive Outcome (α : Type)
| ret (a : α)
| panic (msg : String)
deriving DecidableEq, Repr

/-- The text of the run-time error raised by a nil pointer dereference. -/
def nilDeref : String := "runtime error: invalid memory address or nil pointer dereference"

/-- The receiver `*GostDatabase`.  `ThingExists`, `SensorExists`,
`ObservedPropertyExists` and `JSONToMap` are defined in other files of the package
and `Marshal` is `encoding/json.Marshal`; they are parameters here.  The existence
collaborators read the store and answer with a boolean. -/
structure GostDatabase (σ V : Type) where
  Schema : String
  Db : SqlDB σ
  ThingExists : σ → Int → Bool
  SensorExists : σ → Int → Bool
  ObservedPropertyExists : σ → Int → Bool
  JSONToMap : Option String → Except GoError (GoMap V)
  Marshal : GoMap V → Except GoError String

/-- The statement `b, _ := json.Marshal(m)`: the bytes, nil when marshalling failed. -/
def marshalBytes {σ V : Type} (gdb : GostDatabase σ V) (m : GoMap V) : Option String :=
  match gdb.Marshal m with
  | .ok b => some b
  | .error _ => none

/-- Conversion `string(b[:])` of a byte slice; a nil slice is the empty string. -/
def bytesToString : Option String → String
| some b => b
| none => ""

/-- Method `(*sql.Rows).Close`: it reads a field of its receiver, so it panics on
a nil receiver. -/
def rowsClose : Option Cursor → Outcome Unit
| some _ => .ret ()
| none => .panic nilDeref

/-- Run the deferred `rows.Close()` when a function body has produced `r`. -/
def withDeferredClose {α : Type} (rows : Option Cursor) (r : α) : Outcome α :=
  match rowsClose rows with
  | .ret _ => .ret r
  | .panic m => .panic m

section calls
variable {σ V : Type}

/-- Call `db.Query(sql, args...)`: the cursor or the error, and the new world. -/
def callQuery (gdb : GostDatabase σ V) (st : Stmt) (w : World σ) :
    Except DbError Cursor × World σ :=
  let r := gdb.Db.Query st w.store
  (r.1, { store := r.2, trace := w.trace ++ [.query st] })

/-- Call `db.Exec(sql, args...)`: the error and the new world. -/
def callExec (gdb : GostDatabase σ V) (st : Stmt) (w : World σ) :
    Option GoError × World σ :=
  let r := gdb.Db.Exec st w.store
  (r.1.map GoError.db, { store := r.2, trace := w.trace ++ [.exec st] })

/-- Call `db.QueryRow(sql, args...).Scan(&n)` for an `int` destination. -/
def callQueryRowInt (gdb : GostDatabase σ V) (st : Stmt) (w : World σ) :
    Except DbError Int × World σ :=
  let r := gdb.Db.QueryRowInt st w.store
  (r.1, { store := r.2, trace := w.trace ++ [.queryRow st] })

/-- Call `db.QueryRow(sql, args...).Scan(&b)` for a `bool` destination. -/
def callQueryRowBool (gdb : GostDatabase σ V) (st : Stmt) (w : World σ) :
    Except DbError Bool × World σ :=
  let r := gdb.Db.QueryRowBool st w.store
  (r.1, { store := r.2, trace := w.trace ++ [.queryRow st] })

/-- Call `db.QueryRow(sql, args...).Scan(...)` for the four datastream columns. -/
def callQueryRowDatastream (gdb : GostDatabase σ V) (st : Stmt) (w : World σ) :
    Except DbError ScannedRow × World σ :=
  let r := gdb.Db.QueryRowDatastream st w.store
  (r.1, { store := r.2, trace := w.trace ++ [.queryRow st] })

/-- Call `gdb.ThingExists(id)`. -/
def callThingExists (gdb : GostDatabase σ V) (id : Int) (w : World σ) : Bool × World σ :=
  (gdb.ThingExists w.store id, { w with trace := w.trace ++ [.thingExists id] })

/-- Call `gdb.SensorExists(id)`. -/
def callSensorExists (gdb : GostDatabase σ V) (id : Int) (w : World σ) : Bool × World σ :=
  (gdb.SensorExists w.store id, { w with trace := w.trace ++ [.sensorExists id] })

/-- Call `gdb.ObservedPropertyExists(id)`. -/
def callObservedPropertyExists (gdb : GostDatabase σ V) (id : Int) (w : World σ) :
    Bool × World σ :=
  (gdb.ObservedPropertyExists w.store id,
    { w with trace := w.trace ++ [.observedPropertyExists id] })

end calls

/-! ## `src/src/database/postgis/datastream.go` -/

namespace Postgis

section code
variable {σ V : Type}

/-- Statement text of `GetDatastream`: the `fmt.Sprintf` of the schema name. -/
def getDatastreamSQL (gdb : GostDatabase σ V) : String :=
  "select id, description, unitofmeasurement, public.ST_AsGeoJSON(observedarea) AS observedarea FROM " ++ gdb.Schema ++ ".datastream where id = $1"

/-- Statement text of `GetDatastreams`: the `fmt.Sprintf` of the schema name. -/
def getDatastreamsSQL (gdb : GostDatabase σ V) : String :=
  "select id, description, unitofmeasurement, public.ST_AsGeoJSON(observedarea) AS observedarea FROM " ++ gdb.Schema ++ ".datastream"

/-- Statement text of `GetDatastreamByObservation`: the `fmt.Sprintf` of the schema name. -/
def getDatastreamByObservationSQL (gdb : GostDatabase σ V) : String :=
  "select datastream.id, datastream.description, datastream.unitofmeasurement, public.ST_AsGeoJSON(datastream.observedarea) AS observedarea  FROM " ++ gdb.Schema ++ ".datastream inner join " ++ gdb.Schema ++ ".observation on datastream.id = observation.stream_id where observation.id = $1"

/-- Statement text of `GetDatastreamsByThing`: the `fmt.Sprintf` of the schema name. -/
def getDatastreamsByThingSQL (gdb : GostDatabase σ V) : String :=
  "select datastream.id, datastream.description, datastream.unitofmeasurement, public.ST_AsGeoJSON(datastream.observedarea) AS observedarea  FROM " ++ gdb.Schema ++ ".datastream inner join " ++ gdb.Schema ++ ".thing on thing.id = datastream.thing_id where thing.id = $1"

/-- Statement text of `GetDatastreamsBySensor`: the `fmt.Sprintf` of the schema name. -/
def getDatastreamsBySensorSQL (gdb : GostDatabase σ V) : String :=
  "select datastream.id, datastream.description, datastream.unitofmeasurement, public.ST_AsGeoJSON(datastream.observedarea) AS observedarea  FROM " ++ gdb.Schema ++ ".datastream inner join " ++ gdb.Schema ++ ".sensor on sensor.id = datastream.sensor_id where sensor.id = $1"

/-- Statement text of `GetDatastreamsByObservedProperty`: the `fmt.Sprintf` of the schema name. -/
def getDatastreamsByObservedPropertySQL (gdb : GostDatabase σ V) : String :=
  "select datastream.id, datastream.description, datastream.unitofmeasurement, public.ST_AsGeoJSON(datastream.observedarea) AS observedarea  FROM " ++ gdb.Schema ++ ".datastream inner join " ++ gdb.Schema ++ ".observedproperty on observedproperty.id = datastream.observedproperty_id where observedproperty.id = $1"

/-- Loop `for rows.Next() { ... }` of `processDatastreams`: `datastreams` is the
slice built so far. -/
def scanRows (gdb : GostDatabase σ V) :
    Cursor → List (Datastream V) → Option (List (Datastream V)) × Option GoError
| [], datastreams => (some datastreams, none)
| row :: rest, datastreams =>
  match row with
  | .error e => (none, some (.db e))
  | .ok r =>
    match gdb.JSONToMap (some r.unitofmeasurement) with
    | .error e => (none, some e)
    | .ok unitOfMeasurementMap =>
      match gdb.JSONToMap r.observedarea with
      | .error e => (none, some e)
      | .ok observedAreaMap =>
        let datastream : Datastream V :=
          { (Datastream.zero : Datastream V) with
            ID := Itoa r.id
            Description := r.description
            UnitOfMeasurement := unitOfMeasurementMap
            ObservedArea := observedAreaMap }
        scanRows gdb rest (datastreams ++ [datastream])

/-- Function `processDatastreams`.  `defer rows.Close()` is registered before the
error of `db.Query` is looked at, and `rows` is nil when `db.Query` fails. -/
def processDatastreams (gdb : GostDatabase σ V) (sql : String) (args : List SqlArg)
    (w : World σ) : Outcome (Option (List (Datastream V)) × Option GoError) × World σ :=
  let q := callQuery gdb ⟨sql, args⟩ w
  match q.1 with
  | .error e => (withDeferredClose none (none, some (.db e)), q.2)
  | .ok rows => (withDeferredClose (some rows) (scanRows gdb rows []), q.2)

/-- Function `processDatastream`. -/
def processDatastream (gdb : GostDatabase σ V) (sql : String) (args : List SqlArg)
    (w : World σ) : Outcome (Option (Datastream V) × Option GoError) × World σ :=
  let p := processDatastreams gdb sql args w
  match p.1 with
  | .panic m => (.panic m, p.2)
  | .ret (datastreams, err) =>
    match err with
    | some e => (.ret (none, some e), p.2)
    | none =>
      match datastreams with
      | some (d :: _) => (.ret (some d, none), p.2)
      | _ => (.ret (none, some (.requestNotFound "Datastream not found")), p.2)

/-- Method `GetDatastream`. -/
def GetDatastream (gdb : GostDatabase σ V) (id : String) (w : World σ) :
    Outcome (Option (Datastream V) × Option GoError) × World σ :=
  match Atoi id with
  | .error e => (.ret (none, some e), w)
  | .ok intID =>
    let sql := getDatastreamSQL gdb
    let p := processDatastream gdb sql [.int intID] w
    match p.1 with
    | .panic m => (.panic m, p.2)
    | .ret (datastream, err) =>
      match err with
      | some e => (.ret (none, some e), p.2)
      | none => (.ret (datastream, none), p.2)

/-- Method `GetDatastreams`. -/
def GetDatastreams (gdb : GostDatabase σ V) (w : World σ) :
    Outcome (Option (List (Datastream V)) × Option GoError) × World σ :=
  let sql := getDatastreamsSQL gdb
  processDatastreams gdb sql [] w

/-- Method `GetDatastreamByObservation`. -/
def GetDatastreamByObservation (gdb : GostDatabase σ V) (observationID : String)
    (w : World σ) : Outcome (Option (Datastream V) × Option GoError) × World σ :=
  match Atoi observationID with
  | .error e => (.ret (none, some e), w)
  | .ok tID =>
    let sql := getDatastreamByObservationSQL gdb
    processDatastream gdb sql [.int tID] w

/-- Method `GetDatastreamsByThing`. -/
def GetDatastreamsByThing (gdb : GostDatabase σ V) (thingID : String) (w : World σ) :
    Outcome (Option (List (Datastream V)) × Option GoError) × World σ :=
  match Atoi thingID with
  | .error e => (.ret (none, some e), w)
  | .ok tID =>
    let sql := getDatastreamsByThingSQL gdb
    processDatastreams gdb sql [.int tID] w

/-- Method `GetDatastreamsBySensor`. -/
def GetDatastreamsBySensor (gdb : GostDatabase σ V) (sensorID : String) (w : World σ) :
    Outcome (Option (List (Datastream V)) × Option GoError) × World σ :=
  match Atoi sensorID with
  | .error e => (.ret (none, some e), w)
  | .ok tID =>
    let sql := getDatastreamsBySensorSQL gdb
    processDatastreams gdb sql [.int tID] w

/-- Method `GetDatastreamsByObservedProperty`. -/
def GetDatastreamsByObservedProperty (gdb : GostDatabase σ V) (oID : String)
    (w : World σ) : Outcome (Option (List (Datastream V)) × Option GoError) × World σ :=
  match Atoi oID with
  | .error e => (.ret (none, some e), w)
  | .ok tID =>
    let sql := getDatastreamsByObservedPropertySQL gdb
    processDatastreams gdb sql [.int tID] w

/-- The text `geom` that `PostDatastream` splices into the INSERT statement. -/
def geomText (gdb : GostDatabase σ V) (d : Datastream V) : String :=
  if d.ObservedArea.len ≠ 0 then
    "public.ST_GeomFromGeoJSON('" ++ bytesToString (marshalBytes gdb d.ObservedArea) ++ "')"
  else "NULL"

/-- The statement of `PostDatastream`: `fmt.Sprintf` of the schema and `geom`, and
the five values bound to it. -/
def insertStmt (gdb : GostDatabase σ V) (d : Datastream V) (tID sID oID : Int) : Stmt :=
  { sql := "INSERT INTO " ++ gdb.Schema ++ ".datastream (description, unitofmeasurement, observedarea, thing_id, sensor_id, observedproperty_id) VALUES ($1, $2, " ++ geomText gdb d ++ ", $3, $4, $5) RETURNING id"
    args := [.str d.Description, .bytes (marshalBytes gdb d.UnitOfMeasurement),
             .int tID, .int sID, .int oID] }

/-- Method `PostDatastream`, for a non-nil `d`; the result is the entity `d` points
to on return. -/
def PostDatastream (gdb : GostDatabase σ V) (d : Datastream V) (w : World σ) :
    Outcome (Option (Datastream V) × Option GoError) × World σ :=
  match d.Thing with
  | none => (.panic nilDeref, w)
  | some thing =>
  match Atoi thing.ID with
  | .error _ => (.ret (none, some (.badRequest "Thing does not exist")), w)
  | .ok tID =>
  let c1 := callThingExists gdb tID w
  if !c1.1 then (.ret (none, some (.badRequest "Thing does not exist")), c1.2)
  else
  match d.Sensor with
  | none => (.panic nilDeref, c1.2)
  | some sensor =>
  match Atoi sensor.ID with
  | .error _ => (.ret (none, some (.badRequest "Sensor does not exist")), c1.2)
  | .ok sID =>
  let c2 := callSensorExists gdb sID c1.2
  if !c2.1 then (.ret (none, some (.badRequest "Sensor does not exist")), c2.2)
  else
  match d.ObservedProperty with
  | none => (.panic nilDeref, c2.2)
  | some op =>
  match Atoi op.ID with
  | .error _ => (.ret (none, some (.badRequest "ObservedProperty does not exist")), c2.2)
  | .ok oID =>
  let c3 := callObservedPropertyExists gdb oID c2.2
  if !c3.1 then (.ret (none, some (.badRequest "ObservedProperty does not exist")), c3.2)
  else
  let ins := callQueryRowInt gdb (insertStmt gdb d tID sID oID) c3.2
  match ins.1 with
  | .error e => (.ret (none, some (.db e)), ins.2)
  | .ok dsID =>
    (.ret (some { d with ID := Itoa dsID, Thing := none, Sensor := none,
                         ObservedProperty := none }, none), ins.2)

/-- Method `DeleteDatastream`. -/
def DeleteDatastream (gdb : GostDatabase σ V) (id : String) (w : World σ) :
    Option GoError × World σ :=
  match Atoi id with
  | .error e => (some e, w)
  | .ok intID =>
    let x := callExec gdb ⟨"DELETE FROM " ++ gdb.Schema ++ ".datastream WHERE id = $1", [.int intID]⟩ w
    match x.1 with
    | some e => (some e, x.2)
    | none => (none, x.2)

/-- Method `DatastreamExists`. -/
def DatastreamExists (gdb : GostDatabase σ V) (databaseID : Int) (w : World σ) :
    Bool × World σ :=
  let sql := "SELECT exists (SELECT 1 FROM " ++ gdb.Schema ++ ".datastream WHERE id = $1 LIMIT 1)"
  let q := callQueryRowBool gdb ⟨sql, [.int databaseID]⟩ w
  match q.1 with
  | .error _ => (false, q.2)
  | .ok result => (result, q.2)

end code

end Postgis

/-! ## `src/database/postgis/datastream.go` -/

namespace PostgisLegacy

section code
variable {σ V : Type}

/-- Method `GetDatastream`: one row through `QueryRow(...).Scan(...)`. -/
def GetDatastream (gdb : GostDatabase σ V) (id : String) (w : World σ) :
    (Option (Datastream V) × Option GoError) × World σ :=
  match Atoi id with
  | .error e => ((none, some e), w)
  | .ok intID =>
    let sql := "select id, description, unitofmeasurement, ST_AsGeoJSON(observedarea) FROM " ++ gdb.Schema ++ ".datastream where id = $1"
    let q := callQueryRowDatastream gdb ⟨sql, [.int intID]⟩ w
    match q.1 with
    | .error _ =>
      ((none, some (.requestNotFound ("Datastream(" ++ id ++ ") does not exist"))), q.2)
    | .ok r =>
      match gdb.JSONToMap (some r.unitofmeasurement) with
      | .error e => ((none, some e), q.2)
      | .ok unitOfMeasurementMap =>
        match gdb.JSONToMap r.observedarea with
        | .error e => ((none, some e), q.2)
        | .ok observedAreaMap =>
          ((some { (Datastream.zero : Datastream V) with
                   ID := Itoa r.id
                   Description := r.description
                   UnitOfMeasurement := unitOfMeasurementMap
                   ObservedArea := observedAreaMap }, none), q.2)

/-- Loop `for rows.Next() { ... }` of `GetDatastreams`. -/
def scanRows (gdb : GostDatabase σ V) :
    Cursor → List (Datastream V) → Option (List (Datastream V)) × Option GoError
| [], datastreams => (some datastreams, none)
| row :: rest, datastreams =>
  match row with
  | .error e => (none, some (.db e))
  | .ok r =>
    match gdb.JSONToMap (some r.unitofmeasurement) with
    | .error e => (none, some e)
    | .ok unitOfMeasurementMap =>
      match gdb.JSONToMap r.observedarea with
      | .error e => (none, some e)
      | .ok observedAreaMap =>
        let datastream : Datastream V :=
          { (Datastream.zero : Datastream V) with
            ID := Itoa r.id
            Description := r.description
            UnitOfMeasurement := unitOfMeasurementMap
            ObservedArea := observedAreaMap }
        scanRows gdb rest (datastreams ++ [datastream])

/-- Statement text of `GetDatastreams`: the `fmt.Sprintf` of the schema name. -/
def getDatastreamsSQL (gdb : GostDatabase σ V) : String :=
  "select id, description, unitofmeasurement, ST_AsGeoJSON(observedarea) FROM " ++ gdb.Schema ++ ".datastream"

/-- Method `GetDatastreams`: the error of `db.Query` is returned before
`defer rows.Close()` is registered. -/
def GetDatastreams (gdb : GostDatabase σ V) (w : World σ) :
    Outcome (Option (List (Datastream V)) × Option GoError) × World σ :=
  let sql := getDatastreamsSQL gdb
  let q := callQuery gdb ⟨sql, []⟩ w
  match q.1 with
  | .error e => (.ret (none, some (.db e)), q.2)
  | .ok rows => (withDeferredClose (some rows) (scanRows gdb rows []), q.2)

/-- The text `geom` that `PostDatastream` splices into the INSERT statement. -/
def geomText (gdb : GostDatabase σ V) (d : Datastream V) : String :=
  if d.ObservedArea.len ≠ 0 then
    "ST_GeomFromGeoJSON('" ++ bytesToString (marshalBytes gdb d.ObservedArea) ++ "')"
  else "NULL"

/-- The statement of `PostDatastream` and the five values bound to it. -/
def insertStmt (gdb : GostDatabase σ V) (d : Datastream V) (tID sID oID : Int) : Stmt :=
  { sql := "INSERT INTO " ++ gdb.Schema ++ ".datastream (description, unitofmeasurement, observedarea, thing_id, sensor_id, observerproperty_id) VALUES ($1, $2, " ++ geomText gdb d ++ ", $3, $4, $5) RETURNING id"
    args := [.str d.Description, .bytes (marshalBytes gdb d.UnitOfMeasurement),
             .int tID, .int sID, .int oID] }

/-- Method `PostDatastream`: the three ids are parsed first, then checked in turn. -/
def PostDatastream (gdb : GostDatabase σ V) (d : Datastream V) (w : World σ) :
    Outcome (Option (Datastream V) × Option GoError) × World σ :=
  match d.Thing with
  | none => (.panic nilDeref, w)
  | some thing =>
  match d.Sensor with
  | none => (.panic nilDeref, w)
  | some sensor =>
  match d.ObservedProperty with
  | none => (.panic nilDeref, w)
  | some op =>
  let a1 := Atoi thing.ID
  let a2 := Atoi sensor.ID
  let a3 := Atoi op.ID
  match a1 with
  | .error _ => (.ret (none, some (.badRequest "Thing does not exist")), w)
  | .ok tID =>
  let c1 := callThingExists gdb tID w
  if !c1.1 then (.ret (none, some (.badRequest "Thing does not exist")), c1.2)
  else
  match a2 with
  | .error _ => (.ret (none, some (.badRequest "Sensor does not exist")), c1.2)
  | .ok sID =>
  let c2 := callSensorExists gdb sID c1.2
  if !c2.1 then (.ret (none, some (.badRequest "Sensor does not exist")), c2.2)
  else
  match a3 with
  | .error _ => (.ret (none, some (.badRequest "ObservedProperty does not exist")), c2.2)
  | .ok oID =>
  let c3 := callObservedPropertyExists gdb oID c2.2
  if !c3.1 then (.ret (none, some (.badRequest "ObservedProperty does not exist")), c3.2)
  else
  let ins := callQueryRowInt gdb (insertStmt gdb d tID sID oID) c3.2
  match ins.1 with
  | .error e => (.ret (none, some (.db e)), ins.2)
  | .ok dsID =>
    (.ret (some { d with ID := Itoa dsID, Thing := none, Sensor := none,
                         ObservedProperty := none }, none), ins.2)

/-- Method `DatastreamExists`. -/
def DatastreamExists (gdb : GostDatabase σ V) (databaseID : Int) (w : World σ) :
    Bool × World σ :=
  let sql := "SELECT exists (SELECT 1 FROM " ++ gdb.Schema ++ ".datastream WHERE id = $1 LIMIT 1)"
  let q := callQueryRowBool gdb ⟨sql, [.int databaseID]⟩ w
  match q.1 with
  | .error _ => (false, q.2)
  | .ok result => (result, q.2)

end code

end PostgisLegacy

/-! ## Concrete stores -/

/-- A store that answers every call with a fixed response and has no state. -/
def scriptedDb (q : Except DbError Cursor) (i : Except DbError Int)
    (b : Except DbError Bool) (r : Except DbError ScannedRow) (x : Option DbError) :
    SqlDB Unit where
  Query := fun _ u => (q, u)
  QueryRowInt := fun _ u => (i, u)
  QueryRowBool := fun _ u => (b, u)
  QueryRowDatastream := fun _ u => (r, u)
  Exec := fun _ u => (x, u)

/-- Reference model of the relational store for the table `<schema>.datastream`:
the state is the list of its rows.  `DELETE ... WHERE id = $1` removes the rows
with that id and succeeds whether or not there is one, the two plain selects
return the rows, and the existence query tells whether a row has the id.  Other
statements are refused. -/
def tableDb (schema : String) : SqlDB (List ScannedRow) where
  Query := fun st t =>
    match st.args with
    | [] =>
      if st.sql = "select id, description, unitofmeasurement, public.ST_AsGeoJSON(observedarea) AS observedarea FROM " ++ schema ++ ".datastream" then
        (.ok (t.map Except.ok), t)
      else (.error ⟨"unsupported statement"⟩, t)
    | [.int n] =>
      if st.sql = "select id, description, unitofmeasurement, public.ST_AsGeoJSON(observedarea) AS observedarea FROM " ++ schema ++ ".datastream where id = $1" then
        (.ok ((t.filter (fun r => r.id = n)).map Except.ok), t)
      else (.error ⟨"unsupported statement"⟩, t)
    | _ => (.error ⟨"unsupported statement"⟩, t)
  QueryRowInt := fun _ t => (.error ⟨"unsupported statement"⟩, t)
  QueryRowBool := fun st t =>
    match st.args with
    | [.int n] =>
      if st.sql = "SELECT exists (SELECT 1 FROM " ++ schema ++ ".datastream WHERE id = $1 LIMIT 1)" then
        (.ok (t.any (fun r => r.id = n)), t)
      else (.error ⟨"unsupported statement"⟩, t)
    | _ => (.error ⟨"unsupported statement"⟩, t)
  QueryRowDatastream := fun _ t => (.error ⟨"unsupported statement"⟩, t)
  Exec := fun st t =>
    match st.args with
    | [.int n] =>
      if st.sql = "DELETE FROM " ++ schema ++ ".datastream WHERE id = $1" then
        (none, t.filter (fun r => r.id ≠ n))
      else (some ⟨"unsupported statement"⟩, t)
    | _ => (some ⟨"unsupported statement"⟩, t)

/-- A small stand-in for `JSONToMap` on maps of strings: absent or empty text is
the nil map, the text of the empty object is the empty map, and one fixed object
is known; anything else is malformed. -/
def sampleJSONToMap : Option String → Except GoError (GoMap String)
| none => .ok .nil
| some t =>
  if t = "" then .ok .nil
  else if t = "\x7b\x7d" then .ok (.mk [])
  else if t = "\x7b\"name\":\"Celsius\"\x7d" then .ok (.mk [("name", "Celsius")])
  else .error (.json "invalid character")

/-- A small stand-in for `json.Marshal` on maps of strings (no escaping). -/
def sampleMarshal : GoMap String → Except GoError String
| .nil => .ok "null"
| .mk es =>
  .ok ("\x7b" ++ String.intercalate "," (es.map fun kv => "\"" ++ kv.1 ++ "\":\"" ++ kv.2 ++ "\"")
        ++ "\x7d")

/-- A receiver over the store `db` with schema `v1`, in which the things, sensors
and observed properties that exist are the listed ids. -/
def sampleGdb {σ : Type} (db : SqlDB σ) (things sensors props : List Int) :
    GostDatabase σ String where
  Schema := "v1"
  Db := db
  ThingExists := fun _ id => decide (id ∈ things)
  SensorExists := fun _ id => decide (id ∈ sensors)
  ObservedPropertyExists := fun _ id => decide (id ∈ props)
  JSONToMap := sampleJSONToMap
  Marshal := sampleMarshal

/-- A receiver over the table store. -/
def tableGdb : GostDatabase (List ScannedRow) String :=
  sampleGdb (tableDb "v1") [1] [2] [3]

/-- A create request with empty observed area. -/
def sampleDatastream (thing sensor prop : String) : Datastream String :=
  { ID := "", Description := "temperature",
    UnitOfMeasurement := .mk [("name", "Celsius")], ObservedArea := .mk [],
    Thing := some ⟨thing⟩, Sensor := some ⟨sensor⟩, ObservedProperty := some ⟨prop⟩ }

/-- A stored row. -/
def sampleRow (id : Int) : ScannedRow :=
  { id := id, description := "temperature",
    unitofmeasurement := "\x7b\"name\":\"Celsius\"\x7d", observedarea := none }

/-- A receiver whose store answers every query with a first row that scans and
decodes and a second row whose scan fails. -/
def goodThenBadGdb : GostDatabase Unit String :=
  sampleGdb
    (scriptedDb (.ok [.ok (sampleRow 1), .error ⟨"sql: Scan error on column index 0"⟩])
      (.error ⟨"unsupported statement"⟩) (.error ⟨"unsupported statement"⟩)
      (.error ⟨"unsupported statement"⟩) none)
    [] [] []

/-- A receiver over a store that answers the INSERT with the generated id 42, in
which thing 1, sensor 2 and observed property 3 exist. -/
def insertingGdb : GostDatabase Unit String :=
  sampleGdb
    (scriptedDb (.ok []) (.ok 42) (.ok true) (.error ⟨"sql: no rows in result set"⟩) none)
    [1] [2] [3]

/-- A create request whose observed area has one entry. -/
def sampleAreaDatastream : Datastream String :=
  { sampleDatastream "1" "2" "3" with ObservedArea := .mk [("type", "Point")] }

/-! ## Vocabulary of the claims about row materialisation -/

/-- Row `row` scans and both of its encoded fields decode, and `ent` is the entity
made of its id in decimal, its description and the two decoded mappings. -/
def RowYields {σ V : Type} (gdb : GostDatabase σ V) (row : Except DbError ScannedRow)
    (ent : Datastream V) : Prop :=
  ∃ r u a, row = .ok r ∧ gdb.JSONToMap (some r.unitofmeasurement) = .ok u ∧
    gdb.JSONToMap r.observedarea = .ok a ∧
    ent = { ID := Itoa r.id, Description := r.description, UnitOfMeasurement := u,
            ObservedArea := a, Thing := none, Sensor := none, ObservedProperty := none }

/-- Row `row` fails with `e`: its scan fails, or the unit of measurement does not
decode, or it does and the observed area does not. -/
def RowFails {σ V : Type} (gdb : GostDatabase σ V) (row : Except DbError ScannedRow)
    (e : GoError) : Prop :=
  (∃ de, row = .error de ∧ e = .db de) ∨
  (∃ r, row = .ok r ∧ gdb.JSONToMap (some r.unitofmeasurement) = .error e) ∨
  (∃ r u, row = .ok r ∧ gdb.JSONToMap (some r.unitofmeasurement) = .ok u ∧
    gdb.JSONToMap r.observedarea = .error e)

/-! ## Vocabulary of the claims about creation -/

/-- The thing check of a create request passes in store state `s`: the id text
parses and `ThingExists` answers true. -/
def ThingCheckPasses {σ V : Type} (gdb : GostDatabase σ V) (s : σ) (thing : Thing) : Prop :=
  ∃ tID, Atoi thing.ID = .ok tID ∧ gdb.ThingExists s tID = true

/-- The sensor check passes: the id text parses and `SensorExists` answers true. -/
def SensorCheckPasses {σ V : Type} (gdb : GostDatabase σ V) (s : σ) (sensor : Sensor) : Prop :=
  ∃ sID, Atoi sensor.ID = .ok sID ∧ gdb.SensorExists s sID = true

/-- The observed-property check passes: the id text parses and
`ObservedPropertyExists` answers true. -/
def ObservedPropertyCheckPasses {σ V : Type} (gdb : GostDatabase σ V) (s : σ)
    (prop : ObservedProperty) : Prop :=
  ∃ oID, Atoi prop.ID = .ok oID ∧ gdb.ObservedPropertyExists s oID = true

/-- The type of the two `PostDatastream` methods. -/
abbrev PostFn (σ V : Type) :=
  GostDatabase σ V → Datastream V → World σ →
    Outcome (Option (Datastream V) × Option GoError) × World σ

/-- What the validation of a create request by `post` does, for a request with
thing `thing`, sensor `sensor` and observed property `prop`, started in world `w`:

1. if the thing check fails, the result is the bad-request error
   `Thing does not exist`, the store is unchanged, and nothing or only the call
   `ThingExists` was made, whatever the other two ids are;
2. if the thing check passes and the sensor check fails, the result is
   `Sensor does not exist`, the store is unchanged, and only `ThingExists`, then
   possibly `SensorExists`, were called;
3. if the first two pass and the observed-property check fails, the result is
   `ObservedProperty does not exist`, the store is unchanged, and only the
   existence collaborators were called, in the order thing, sensor, observed
   property;
4. each of the three errors is returned only in its case;
5. when a check fails, no statement is handed to the store. -/
def ValidatesInOrder {σ V : Type} (post : PostFn σ V) (gdb : GostDatabase σ V)
    (d : Datastream V) (w : World σ) (thing : Thing) (sensor : Sensor)
    (prop : ObservedProperty) : Prop :=
  let r := post gdb d w
  let thingOk := ThingCheckPasses gdb w.store thing
  let sensorOk := SensorCheckPasses gdb w.store sensor
  let propOk := ObservedPropertyCheckPasses gdb w.store prop
  (¬ thingOk →
    r.1 = .ret (none, some (.badRequest "Thing does not exist")) ∧ r.2.store = w.store ∧
    (r.2.trace = w.trace ∨ ∃ tID, r.2.trace = w.trace ++ [.thingExists tID])) ∧
  (thingOk → ¬ sensorOk →
    r.1 = .ret (none, some (.badRequest "Sensor does not exist")) ∧ r.2.store = w.store ∧
    ∃ tID, r.2.trace = w.trace ++ [.thingExists tID] ∨
      ∃ sID, r.2.trace = w.trace ++ [.thingExists tID, .sensorExists sID]) ∧
  (thingOk → sensorOk → ¬ propOk →
    r.1 = .ret (none, some (.badRequest "ObservedProperty does not exist")) ∧
    r.2.store = w.store ∧
    ∃ tID sID, r.2.trace = w.trace ++ [.thingExists tID, .sensorExists sID] ∨
      ∃ oID, r.2.trace
        = w.trace ++ [.thingExists tID, .sensorExists sID, .observedPropertyExists oID]) ∧
  (r.1 = .ret (none, some (.badRequest "Thing does not exist")) → ¬ thingOk) ∧
  (r.1 = .ret (none, some (.badRequest "Sensor does not exist")) → thingOk ∧ ¬ sensorOk) ∧
  (r.1 = .ret (none, some (.badRequest "ObservedProperty does not exist")) →
    thingOk ∧ sensorOk ∧ ¬ propOk) ∧
  (¬ (thingOk ∧ sensorOk ∧ propOk) →
    ∀ ev ∈ r.2.trace, ev ∈ w.trace ∨ ev.isStatement = false)

/-! ## Claims -/

/-- C10: `DatastreamExists` never propagates a failure. In both revisions, for every
id, the function hands exactly one existence statement to the store; if the query
or the scan of its result fails it returns false, otherwise it returns the boolean
the store reported; so it returns true only when the store answered true. -/
theorem C10_datastreamExists_swallows_errors {σ V : Type} (gdb : GostDatabase σ V)
    (id : Int) (w : World σ) :
    let st : Stmt :=
      ⟨"SELECT exists (SELECT 1 FROM " ++ gdb.Schema ++ ".datastream WHERE id = $1 LIMIT 1)",
        [.int id]⟩
    let answer := (gdb.Db.QueryRowBool st w.store).1
    ((∀ e, answer = .error e → (Postgis.DatastreamExists gdb id w).1 = false) ∧
     (∀ b, answer = .ok b → (Postgis.DatastreamExists gdb id w).1 = b) ∧
     ((Postgis.DatastreamExists gdb id w).1 = true → answer = .ok true) ∧
     (Postgis.DatastreamExists gdb id w).2.trace = w.trace ++ [.queryRow st]) ∧
    ((∀ e, answer = .error e → (PostgisLegacy.DatastreamExists gdb id w).1 = false) ∧
     (∀ b, answer = .ok b → (PostgisLegacy.DatastreamExists gdb id w).1 = b) ∧
     ((PostgisLegacy.DatastreamExists gdb id w).1 = true → answer = .ok true) ∧
     (PostgisLegacy.DatastreamExists gdb id w).2.trace = w.trace ++ [.queryRow st]) := by
  intro st answer
  have hq : (callQueryRowBool gdb st w).1 = answer := rfl
  have ht : (callQueryRowBool gdb st w).2.trace = w.trace ++ [.queryRow st] := rfl
  refine ⟨⟨?_, ?_, ?_, ?_⟩, ⟨?_, ?_, ?_, ?_⟩⟩
  all_goals
    simp only [Postgis.DatastreamExists, PostgisLegacy.DatastreamExists]
    try rw [hq]
  all_goals
    cases h : answer <;> simp_all

/-- C3 (as stated, refuted): the text `-1` is not parseable as a non-negative
integer, yet `Atoi` accepts it: `GetDatastream` hands a SELECT to the store and
answers with not-found, and `DeleteDatastream` hands a DELETE to the store and
returns no error. -/
theorem C3_negative_id_reaches_store :
    (¬ ∃ n : Nat, Atoi "-1" = .ok (n : Int)) ∧
    Atoi "-1" = .ok (-1) ∧
    (Postgis.GetDatastream tableGdb "-1" ⟨[sampleRow 1], []⟩).1
      = .ret (none, some (.requestNotFound "Datastream not found")) ∧
    (Postgis.GetDatastream tableGdb "-1" ⟨[sampleRow 1], []⟩).2.trace
      = [.query ⟨"select id, description, unitofmeasurement, public.ST_AsGeoJSON(observedarea) AS observedarea FROM v1.datastream where id = $1", [.int (-1)]⟩] ∧
    (Postgis.DeleteDatastream tableGdb "-1" ⟨[sampleRow 1], []⟩).1 = none ∧
    (Postgis.DeleteDatastream tableGdb "-1" ⟨[sampleRow 1], []⟩).2.trace
      = [.exec ⟨"DELETE FROM v1.datastream WHERE id = $1", [.int (-1)]⟩] := by
  refine ⟨?_, by decide, by decide, by decide, by decide, by decide⟩
  rintro ⟨n, hn⟩
  have h : Atoi "-1" = .ok (-1) := by decide
  rw [h] at hn
  injection hn with hn
  omega

/-- C3 (amended): for every identifier text that `Atoi` rejects, `GetDatastream`
and `DeleteDatastream` return that parse error, a `*strconv.NumError` naming the
text, with no entity, and leave the store and the trace untouched: no statement is
issued. -/
theorem C3_unparseable_id_rejected_before_store {σ V : Type} (gdb : GostDatabase σ V)
    (id : String) (w : World σ) (e : GoError) (h : Atoi id = .error e) :
    Postgis.GetDatastream gdb id w = (.ret (none, some e), w) ∧
    Postgis.DeleteDatastream gdb id w = (some e, w) ∧
    (∃ fn kind, e = .numError fn id kind) := by
  refine ⟨?_, ?_, ?_⟩
  · simp [Postgis.GetDatastream, h]
  · simp [Postgis.DeleteDatastream, h]
  · unfold Atoi at h
    split at h
    · injection h with h; exact ⟨_, _, h.symm⟩
    · simp only at h
      split at h
      · injection h with h; exact ⟨_, _, h.symm⟩
      · split at h
        · injection h with h; exact ⟨_, _, h.symm⟩
        · injection h with h; exact ⟨_, _, h.symm⟩
        · split at h
          · injection h with h; exact ⟨_, _, h.symm⟩
          · split at h
            · injection h with h; exact ⟨_, _, h.symm⟩
            · cases h

/-- Witness for C3: the text `4x` is rejected. -/
theorem C3_unparseable_id_rejected_before_store_witness :
    Atoi "4x" = .error (.numError "Atoi" "4x" .malformed) ∧
    Postgis.GetDatastream tableGdb "4x" ⟨[sampleRow 1], []⟩
      = (.ret (none, some (.numError "Atoi" "4x" .malformed)), ⟨[sampleRow 1], []⟩) ∧
    Postgis.DeleteDatastream tableGdb "4x" ⟨[sampleRow 1], []⟩
      = (some (.numError "Atoi" "4x" .malformed), ⟨[sampleRow 1], []⟩) :=
  ⟨by decide,
   (C3_unparseable_id_rejected_before_store tableGdb "4x" ⟨[sampleRow 1], []⟩ _ (by decide)).1,
   (C3_unparseable_id_rejected_before_store tableGdb "4x" ⟨[sampleRow 1], []⟩ _ (by decide)).2.1⟩

/-- C9: for every identifier text that parses to an integer `n`, `DeleteDatastream`
hands the store exactly one statement, the DELETE by primary key bound to `n`, with
no check before it, and returns no error whenever the store reports none. On the
table store a delete of an id that no row has succeeds and leaves the store as it
was, and a second delete of the same id gives the same result and store as the
first. -/
theorem C9_delete_unconditional_idempotent {σ V : Type} (gdb : GostDatabase σ V)
    (tgdb : GostDatabase (List ScannedRow) V) (id : String) (n : Int)
    (w : World σ) (tw : World (List ScannedRow))
    (hid : Atoi id = .ok n) (hdb : tgdb.Db = tableDb tgdb.Schema) :
    let st : Stmt := ⟨"DELETE FROM " ++ gdb.Schema ++ ".datastream WHERE id = $1", [.int n]⟩
    let once := Postgis.DeleteDatastream tgdb id tw
    let twice := Postgis.DeleteDatastream tgdb id once.2
    ((Postgis.DeleteDatastream gdb id w).2.trace = w.trace ++ [.exec st] ∧
     (Postgis.DeleteDatastream gdb id w).2.store = (gdb.Db.Exec st w.store).2 ∧
     (Postgis.DeleteDatastream gdb id w).1 = (gdb.Db.Exec st w.store).1.map GoError.db ∧
     ((gdb.Db.Exec st w.store).1 = none → (Postgis.DeleteDatastream gdb id w).1 = none)) ∧
    (once.1 = none ∧ once.2.store = tw.store.filter (fun r => r.id ≠ n)) ∧
    ((∀ r ∈ tw.store, r.id ≠ n) → once.1 = none ∧ once.2.store = tw.store) ∧
    (twice.1 = once.1 ∧ twice.2.store = once.2.store) := by
  intro st once twice
  have hgen : ∀ (u : World (List ScannedRow)),
      (Postgis.DeleteDatastream tgdb id u).1 = none ∧
      (Postgis.DeleteDatastream tgdb id u).2.store = u.store.filter (fun r => r.id ≠ n) := by
    intro u
    simp only [Postgis.DeleteDatastream, hid, callExec, hdb, tableDb]
    simp
  refine ⟨⟨?_, ?_, ?_, ?_⟩, hgen tw, ?_, ?_⟩
  · simp only [Postgis.DeleteDatastream, hid, callExec]
    cases (gdb.Db.Exec st w.store).1 <;> rfl
  · simp only [Postgis.DeleteDatastream, hid, callExec]
    cases (gdb.Db.Exec st w.store).1 <;> rfl
  · simp only [Postgis.DeleteDatastream, hid, callExec]
    cases (gdb.Db.Exec st w.store).1 <;> rfl
  · intro hx
    simp only [Postgis.DeleteDatastream, hid, callExec]
    rw [hx]
    rfl
  · intro hno
    refine ⟨(hgen tw).1, ?_⟩
    rw [(hgen tw).2]
    apply List.filter_eq_self.mpr
    intro r hr
    simpa using hno r hr
  · refine ⟨by rw [(hgen once.2).1, (hgen tw).1], ?_⟩
    rw [(hgen once.2).2, (hgen tw).2, List.filter_filter]
    simp

/-- Witness for C9: deleting id 7 from a table that holds only id 1, twice. -/
theorem C9_delete_unconditional_idempotent_witness :
    Atoi "7" = .ok 7 ∧
    (Postgis.DeleteDatastream tableGdb "7" ⟨[sampleRow 1], []⟩).1 = none ∧
    (Postgis.DeleteDatastream tableGdb "7" ⟨[sampleRow 1], []⟩).2.store = [sampleRow 1] :=
  ⟨by decide,
   ((C9_delete_unconditional_idempotent tableGdb tableGdb "7" 7 ⟨[sampleRow 1], []⟩
      ⟨[sampleRow 1], []⟩ (by decide) rfl).2.2.1 (by decide))⟩

/-- C4 (the code at the failing input): when `db.Query` itself fails with `e`, every
read operation of `src/src/database/postgis/datastream.go` panics in the deferred
`rows.Close()` on the nil cursor instead of returning `e`; the legacy
`GetDatastream` turns a failure `e` of its single-row query into a not-found error.
The legacy `GetDatastreams` checks the error first and returns `e` unchanged. -/
theorem C4_query_failure_not_propagated {σ V : Type} (gdb : GostDatabase σ V)
    (id : String) (n : Int) (w : World σ) (e : DbError)
    (hid : Atoi id = .ok n)
    (hq : ∀ st, (gdb.Db.Query st w.store).1 = .error e)
    (hrow : ∀ st, (gdb.Db.QueryRowDatastream st w.store).1 = .error e) :
    (∀ sql args, (Postgis.processDatastreams gdb sql args w).1 = .panic nilDeref) ∧
    (Postgis.GetDatastream gdb id w).1 = .panic nilDeref ∧
    (Postgis.GetDatastreams gdb w).1 = .panic nilDeref ∧
    (Postgis.GetDatastreamByObservation gdb id w).1 = .panic nilDeref ∧
    (Postgis.GetDatastreamsByThing gdb id w).1 = .panic nilDeref ∧
    (Postgis.GetDatastreamsBySensor gdb id w).1 = .panic nilDeref ∧
    (Postgis.GetDatastreamsByObservedProperty gdb id w).1 = .panic nilDeref ∧
    (PostgisLegacy.GetDatastream gdb id w).1
      = (none, some (.requestNotFound ("Datastream(" ++ id ++ ") does not exist"))) ∧
    (PostgisLegacy.GetDatastreams gdb w).1 = .ret (none, some (.db e)) := by
  have hp : ∀ sql args, (Postgis.processDatastreams gdb sql args w).1 = .panic nilDeref := by
    intro sql args
    simp [Postgis.processDatastreams, callQuery, hq, withDeferredClose, rowsClose]
  have hp1 : ∀ sql args, (Postgis.processDatastream gdb sql args w).1 = .panic nilDeref := by
    intro sql args
    simp [Postgis.processDatastream, hp]
  refine ⟨hp, ?_, ?_, ?_, ?_, ?_, ?_, ?_, ?_⟩
  · simp [Postgis.GetDatastream, hid, hp1]
  · simp [Postgis.GetDatastreams, hp]
  · simp [Postgis.GetDatastreamByObservation, hid, hp1]
  · simp [Postgis.GetDatastreamsByThing, hid, hp]
  · simp [Postgis.GetDatastreamsBySensor, hid, hp]
  · simp [Postgis.GetDatastreamsByObservedProperty, hid, hp]
  · simp [PostgisLegacy.GetDatastream, hid, callQueryRowDatastream, hrow]
  · simp [PostgisLegacy.GetDatastreams, callQuery, hq]

/-- Witness for C4: a store whose every call fails with `connection refused`; the
listing of all datastreams panics. -/
theorem C4_query_failure_not_propagated_witness :
    (Postgis.GetDatastreams
      (sampleGdb (scriptedDb (.error ⟨"connection refused"⟩) (.error ⟨"connection refused"⟩)
        (.error ⟨"connection refused"⟩) (.error ⟨"connection refused"⟩)
        (some ⟨"connection refused"⟩)) [] [] [])
      ⟨(), []⟩).1 = .panic nilDeref :=
  (C4_query_failure_not_propagated
    (sampleGdb (scriptedDb (.error ⟨"connection refused"⟩) (.error ⟨"connection refused"⟩)
        (.error ⟨"connection refused"⟩) (.error ⟨"connection refused"⟩)
        (some ⟨"connection refused"⟩)) [] [] [])
    "1" 1 ⟨(), []⟩ ⟨"connection refused"⟩ (by decide) (fun _ => rfl) (fun _ => rfl)).2.2.1

/-! ### Row materialisation -/

theorem legacy_scanRows_eq {σ V : Type} (gdb : GostDatabase σ V) (rows : Cursor)
    (acc : List (Datastream V)) :
    PostgisLegacy.scanRows gdb rows acc = Postgis.scanRows gdb rows acc := by
  induction rows generalizing acc with
  | nil => rfl
  | cons row rest ih =>
    unfold PostgisLegacy.scanRows Postgis.scanRows
    cases row with
    | error e => rfl
    | ok r =>
      simp only
      cases gdb.JSONToMap (some r.unitofmeasurement) with
      | error e => rfl
      | ok u =>
        simp only
        cases gdb.JSONToMap r.observedarea with
        | error e => rfl
        | ok a => simp only; exact ih _

theorem scanRows_all_yield {σ V : Type} (gdb : GostDatabase σ V) (rows : Cursor)
    (ents : List (Datastream V)) (h : List.Forall₂ (RowYields gdb) rows ents)
    (acc : List (Datastream V)) :
    Postgis.scanRows gdb rows acc = (some (acc ++ ents), none) := by
  induction h generalizing acc with
  | nil => simp [Postgis.scanRows]
  | cons hrow _ ih =>
    obtain ⟨r, u, a, rfl, hu, ha, rfl⟩ := hrow
    unfold Postgis.scanRows
    simp only [hu, ha]
    rw [ih]
    simp [Datastream.zero]

theorem scanRows_first_failure {σ V : Type} (gdb : GostDatabase σ V)
    (pre : Cursor) (bad : Except DbError ScannedRow) (post : Cursor)
    (ents : List (Datastream V)) (e : GoError)
    (hpre : List.Forall₂ (RowYields gdb) pre ents) (hbad : RowFails gdb bad e)
    (acc : List (Datastream V)) :
    Postgis.scanRows gdb (pre ++ bad :: post) acc = (none, some e) := by
  induction hpre generalizing acc with
  | nil =>
    rcases hbad with ⟨de, rfl, rfl⟩ | ⟨r, rfl, hu⟩ | ⟨r, u, rfl, hu, ha⟩
    · simp [Postgis.scanRows]
    · simp [Postgis.scanRows, hu]
    · simp [Postgis.scanRows, hu, ha]
  | cons hrow _ ih =>
    obtain ⟨r, u, a, rfl, hu, ha, rfl⟩ := hrow
    simp only [List.cons_append]
    unfold Postgis.scanRows
    simp only [hu, ha]
    exact ih _

theorem scanRows_some_failure {σ V : Type} (gdb : GostDatabase σ V) (rows : Cursor)
    (h : ∃ row ∈ rows, ∃ e, RowFails gdb row e) (acc : List (Datastream V)) :
    ∃ row ∈ rows, ∃ e, RowFails gdb row e ∧ Postgis.scanRows gdb rows acc = (none, some e) := by
  induction rows generalizing acc with
  | nil => obtain ⟨row, hmem, _⟩ := h; cases hmem
  | cons row rest ih =>
    cases hrow : row with
    | error de =>
      exact ⟨.error de, by simp, .db de, Or.inl ⟨de, rfl, rfl⟩, by simp [Postgis.scanRows]⟩
    | ok r =>
      cases hu : gdb.JSONToMap (some r.unitofmeasurement) with
      | error e =>
        exact ⟨.ok r, by simp, e, Or.inr (Or.inl ⟨r, rfl, hu⟩), by simp [Postgis.scanRows, hu]⟩
      | ok u =>
        cases ha : gdb.JSONToMap r.observedarea with
        | error e =>
          exact ⟨.ok r, by simp, e, Or.inr (Or.inr ⟨r, u, rfl, hu, ha⟩),
            by simp [Postgis.scanRows, hu, ha]⟩
        | ok a =>
          have hrest : ∃ row' ∈ rest, ∃ e, RowFails gdb row' e := by
            obtain ⟨row', hmem, e, hf⟩ := h
            rcases List.mem_cons.mp hmem with heq | hmem'
            · subst heq
              rw [hrow] at hf
              rcases hf with ⟨de, hde, _⟩ | ⟨r', hr', hu'⟩ | ⟨r', u', hr', _, ha'⟩
              · cases hde
              · injection hr' with hr'; subst hr'; rw [hu] at hu'; cases hu'
              · injection hr' with hr'; subst hr'; rw [ha] at ha'; cases ha'
            · exact ⟨row', hmem', e, hf⟩
          obtain ⟨row', hmem', e, hf, hres⟩ := ih hrest (acc ++ [_])
          refine ⟨row', List.mem_cons_of_mem _ hmem', e, hf, ?_⟩
          unfold Postgis.scanRows
          simp only [hu, ha]
          exact hres

theorem processDatastreams_of_rows {σ V : Type} (gdb : GostDatabase σ V) (sql : String)
    (args : List SqlArg) (w : World σ) (rows : Cursor)
    (hq : (gdb.Db.Query ⟨sql, args⟩ w.store).1 = .ok rows) :
    (Postgis.processDatastreams gdb sql args w).1 = .ret (Postgis.scanRows gdb rows []) := by
  simp [Postgis.processDatastreams, callQuery, hq, withDeferredClose, rowsClose]

theorem processDatastream_of_error {σ V : Type} (gdb : GostDatabase σ V) (sql : String)
    (args : List SqlArg) (w : World σ) (e : GoError)
    (h : (Postgis.processDatastreams gdb sql args w).1 = .ret (none, some e)) :
    (Postgis.processDatastream gdb sql args w).1 = .ret (none, some e) := by
  simp [Postgis.processDatastream, h]

theorem getDatastream_eq_processDatastream {σ V : Type} (gdb : GostDatabase σ V)
    (id : String) (n : Int) (w : World σ) (hid : Atoi id = .ok n) :
    Postgis.GetDatastream gdb id w
      = Postgis.processDatastream gdb (Postgis.getDatastreamSQL gdb) [.int n] w := by
  simp only [Postgis.GetDatastream, hid, Postgis.processDatastream]
  cases (Postgis.processDatastreams gdb (Postgis.getDatastreamSQL gdb) [.int n] w).1 with
  | panic m => rfl
  | ret r =>
    obtain ⟨ds, err⟩ := r
    cases err with
    | some e => rfl
    | none =>
      cases ds with
      | none => rfl
      | some l => cases l <;> rfl

/-- C6: `processDatastreams` is all-or-nothing and order-preserving. When the query
returns the rows `rows`: if every row scans and decodes, the result is the list of
their entities, one per row in row order, each made of the decimal id, the
description and the two decoded mappings, with no error; if a row fails after a
prefix of good rows, the result is that row's error and the nil slice; whenever some
row fails the result is the error of a failing row and no entities. The same failure
results come out of `processDatastream`, which `GetDatastream` and
`GetDatastreamByObservation` call with their statement, and of the legacy
`GetDatastreams`. -/
theorem C6_rows_all_or_nothing {σ V : Type} (gdb : GostDatabase σ V) (sql : String)
    (args : List SqlArg) (w : World σ) (rows : Cursor)
    (hq : (gdb.Db.Query ⟨sql, args⟩ w.store).1 = .ok rows) :
    (∀ ents, List.Forall₂ (RowYields gdb) rows ents →
      (Postgis.processDatastreams gdb sql args w).1 = .ret (some ents, none)) ∧
    (∀ pre bad post ents e, rows = pre ++ bad :: post →
      List.Forall₂ (RowYields gdb) pre ents → RowFails gdb bad e →
      (Postgis.processDatastreams gdb sql args w).1 = .ret (none, some e) ∧
      (Postgis.processDatastream gdb sql args w).1 = .ret (none, some e)) ∧
    ((∃ row ∈ rows, ∃ e, RowFails gdb row e) →
      ∃ row ∈ rows, ∃ e, RowFails gdb row e ∧
        (Postgis.processDatastreams gdb sql args w).1 = .ret (none, some e) ∧
        (Postgis.processDatastream gdb sql args w).1 = .ret (none, some e)) ∧
    (∀ id n, Atoi id = .ok n →
      Postgis.GetDatastream gdb id w
        = Postgis.processDatastream gdb (Postgis.getDatastreamSQL gdb) [.int n] w ∧
      Postgis.GetDatastreamByObservation gdb id w
        = Postgis.processDatastream gdb (Postgis.getDatastreamByObservationSQL gdb) [.int n] w) ∧
    (sql = PostgisLegacy.getDatastreamsSQL gdb → args = [] →
      (∀ ents, List.Forall₂ (RowYields gdb) rows ents →
        (PostgisLegacy.GetDatastreams gdb w).1 = .ret (some ents, none)) ∧
      (∀ pre bad post ents e, rows = pre ++ bad :: post →
        List.Forall₂ (RowYields gdb) pre ents → RowFails gdb bad e →
        (PostgisLegacy.GetDatastreams gdb w).1 = .ret (none, some e)) ∧
      ((∃ row ∈ rows, ∃ e, RowFails gdb row e) →
        ∃ row ∈ rows, ∃ e, RowFails gdb row e ∧
          (PostgisLegacy.GetDatastreams gdb w).1 = .ret (none, some e))) := by
  have hp := processDatastreams_of_rows gdb sql args w rows hq
  refine ⟨?_, ?_, ?_, ?_, ?_⟩
  · intro ents h
    rw [hp, scanRows_all_yield gdb rows ents h []]
    simp
  · intro pre bad post ents e hrows hpre hbad
    have h1 : (Postgis.processDatastreams gdb sql args w).1 = .ret (none, some e) := by
      rw [hp, hrows, scanRows_first_failure gdb pre bad post ents e hpre hbad []]
    exact ⟨h1, processDatastream_of_error gdb sql args w e h1⟩
  · intro h
    obtain ⟨row, hmem, e, hf, hres⟩ := scanRows_some_failure gdb rows h []
    have h1 : (Postgis.processDatastreams gdb sql args w).1 = .ret (none, some e) := by
      rw [hp, hres]
    exact ⟨row, hmem, e, hf, h1, processDatastream_of_error gdb sql args w e h1⟩
  · intro id n hid
    refine ⟨getDatastream_eq_processDatastream gdb id n w hid, ?_⟩
    simp [Postgis.GetDatastreamByObservation, hid]
  · intro hsql hargs
    subst hsql hargs
    have hl : (PostgisLegacy.GetDatastreams gdb w).1 = .ret (Postgis.scanRows gdb rows []) := by
      simp [PostgisLegacy.GetDatastreams, callQuery, hq, withDeferredClose, rowsClose,
        legacy_scanRows_eq]
    refine ⟨?_, ?_, ?_⟩
    · intro ents h
      rw [hl, scanRows_all_yield gdb rows ents h []]
      simp
    · intro pre bad post ents e hrows hpre hbad
      rw [hl, hrows, scanRows_first_failure gdb pre bad post ents e hpre hbad []]
    · intro h
      obtain ⟨row, hmem, e, hf, hres⟩ := scanRows_some_failure gdb rows h []
      exact ⟨row, hmem, e, hf, by rw [hl, hres]⟩

/-- Witness for C6: the table store holding rows 1 and 2 lists both, in order. -/
theorem C6_rows_all_or_nothing_witness :
    (Postgis.processDatastreams tableGdb (Postgis.getDatastreamsSQL tableGdb) []
        ⟨[sampleRow 1, sampleRow 2], []⟩).1
      = .ret (some [⟨"1", "temperature", .mk [("name", "Celsius")], .nil, none, none, none⟩,
                    ⟨"2", "temperature", .mk [("name", "Celsius")], .nil, none, none, none⟩],
              none) :=
  (C6_rows_all_or_nothing tableGdb (Postgis.getDatastreamsSQL tableGdb) []
      ⟨[sampleRow 1, sampleRow 2], []⟩ [.ok (sampleRow 1), .ok (sampleRow 2)] (by decide)).1 _
    (List.Forall₂.cons
      ⟨sampleRow 1, .mk [("name", "Celsius")], .nil, rfl, by decide, by decide, by decide⟩
      (List.Forall₂.cons
        ⟨sampleRow 2, .mk [("name", "Celsius")], .nil, rfl, by decide, by decide, by decide⟩
        List.Forall₂.nil))

/-- C5 (as stated, refuted): the query matches two rows, the first of which scans
and decodes to an entity, and its second row fails to scan; the single-entity
lookups return the scan error and no entity, not the entity of the first row. -/
theorem C5_first_row_not_returned_when_later_row_fails :
    RowYields goodThenBadGdb (.ok (sampleRow 1))
      ⟨"1", "temperature", .mk [("name", "Celsius")], .nil, none, none, none⟩ ∧
    (Postgis.GetDatastream goodThenBadGdb "1" ⟨(), []⟩).1
      = .ret (none, some (.db ⟨"sql: Scan error on column index 0"⟩)) ∧
    (Postgis.GetDatastreamByObservation goodThenBadGdb "1" ⟨(), []⟩).1
      = .ret (none, some (.db ⟨"sql: Scan error on column index 0"⟩)) ∧
    (Postgis.GetDatastream goodThenBadGdb "1" ⟨(), []⟩).1
      ≠ .ret (some ⟨"1", "temperature", .mk [("name", "Celsius")], .nil, none, none, none⟩,
              none) :=
  ⟨⟨sampleRow 1, .mk [("name", "Celsius")], .nil, rfl, by decide, by decide, by decide⟩,
   by decide, by decide, by decide⟩

/-- C5 (amended): when the query of a lookup succeeds and matches zero rows,
`GetDatastream` (for an id that parses) and `GetDatastreamByObservation` fail with
the not-found error, and `GetDatastreams`, `GetDatastreamsByThing`,
`GetDatastreamsBySensor` and `GetDatastreamsByObservedProperty` return the empty
non-nil slice and a nil error; when the query matches at least one row and every
matched row scans and decodes, the single-entity lookups return exactly the entity
of the first row. -/
theorem C5_zero_rows_and_first_row {σ V : Type} (gdb : GostDatabase σ V)
    (id : String) (n : Int) (w : World σ) (hid : Atoi id = .ok n) :
    ((gdb.Db.Query ⟨Postgis.getDatastreamSQL gdb, [.int n]⟩ w.store).1 = .ok [] →
      (Postgis.GetDatastream gdb id w).1
        = .ret (none, some (.requestNotFound "Datastream not found"))) ∧
    ((gdb.Db.Query ⟨Postgis.getDatastreamByObservationSQL gdb, [.int n]⟩ w.store).1 = .ok [] →
      (Postgis.GetDatastreamByObservation gdb id w).1
        = .ret (none, some (.requestNotFound "Datastream not found"))) ∧
    ((gdb.Db.Query ⟨Postgis.getDatastreamsSQL gdb, []⟩ w.store).1 = .ok [] →
      (Postgis.GetDatastreams gdb w).1 = .ret (some [], none)) ∧
    ((gdb.Db.Query ⟨Postgis.getDatastreamsByThingSQL gdb, [.int n]⟩ w.store).1 = .ok [] →
      (Postgis.GetDatastreamsByThing gdb id w).1 = .ret (some [], none)) ∧
    ((gdb.Db.Query ⟨Postgis.getDatastreamsBySensorSQL gdb, [.int n]⟩ w.store).1 = .ok [] →
      (Postgis.GetDatastreamsBySensor gdb id w).1 = .ret (some [], none)) ∧
    ((gdb.Db.Query ⟨Postgis.getDatastreamsByObservedPropertySQL gdb, [.int n]⟩ w.store).1
        = .ok [] →
      (Postgis.GetDatastreamsByObservedProperty gdb id w).1 = .ret (some [], none)) ∧
    (∀ rows ent ents,
      (gdb.Db.Query ⟨Postgis.getDatastreamSQL gdb, [.int n]⟩ w.store).1 = .ok rows →
      List.Forall₂ (RowYields gdb) rows (ent :: ents) →
      (Postgis.GetDatastream gdb id w).1 = .ret (some ent, none)) ∧
    (∀ rows ent ents,
      (gdb.Db.Query ⟨Postgis.getDatastreamByObservationSQL gdb, [.int n]⟩ w.store).1
        = .ok rows →
      List.Forall₂ (RowYields gdb) rows (ent :: ents) →
      (Postgis.GetDatastreamByObservation gdb id w).1 = .ret (some ent, none)) := by
  have hzero : ∀ sql args, (gdb.Db.Query ⟨sql, args⟩ w.store).1 = .ok [] →
      (Postgis.processDatastreams gdb sql args w).1 = .ret (some [], none) := by
    intro sql args h
    rw [processDatastreams_of_rows gdb sql args w [] h]
    rfl
  have hnone : ∀ sql args, (gdb.Db.Query ⟨sql, args⟩ w.store).1 = .ok [] →
      (Postgis.processDatastream gdb sql args w).1
        = .ret (none, some (.requestNotFound "Datastream not found")) := by
    intro sql args h
    simp [Postgis.processDatastream, hzero sql args h]
  have hfirst : ∀ sql args rows ent ents, (gdb.Db.Query ⟨sql, args⟩ w.store).1 = .ok rows →
      List.Forall₂ (RowYields gdb) rows (ent :: ents) →
      (Postgis.processDatastream gdb sql args w).1 = .ret (some ent, none) := by
    intro sql args rows ent ents h hall
    have hp : (Postgis.processDatastreams gdb sql args w).1 = .ret (some (ent :: ents), none) := by
      rw [processDatastreams_of_rows gdb sql args w rows h, scanRows_all_yield gdb rows _ hall []]
      simp
    simp [Postgis.processDatastream, hp]
  refine ⟨?_, ?_, ?_, ?_, ?_, ?_, ?_, ?_⟩
  · intro h
    rw [getDatastream_eq_processDatastream gdb id n w hid]
    exact hnone _ _ h
  · intro h
    simp only [Postgis.GetDatastreamByObservation, hid]
    exact hnone _ _ h
  · intro h
    simp only [Postgis.GetDatastreams]
    exact hzero _ _ h
  · intro h
    simp only [Postgis.GetDatastreamsByThing, hid]
    exact hzero _ _ h
  · intro h
    simp only [Postgis.GetDatastreamsBySensor, hid]
    exact hzero _ _ h
  · intro h
    simp only [Postgis.GetDatastreamsByObservedProperty, hid]
    exact hzero _ _ h
  · intro rows ent ents h hall
    rw [getDatastream_eq_processDatastream gdb id n w hid]
    exact hfirst _ _ rows ent ents h hall
  · intro rows ent ents h hall
    simp only [Postgis.GetDatastreamByObservation, hid]
    exact hfirst _ _ rows ent ents h hall

/-- Witness for C5: on the table store holding row 1, id 7 is not found and id 1 is
returned. -/
theorem C5_zero_rows_and_first_row_witness :
    Atoi "7" = .ok 7 ∧
    (Postgis.GetDatastream tableGdb "7" ⟨[sampleRow 1], []⟩).1
      = .ret (none, some (.requestNotFound "Datastream not found")) ∧
    (Postgis.GetDatastream tableGdb "1" ⟨[sampleRow 1], []⟩).1
      = .ret (some ⟨"1", "temperature", .mk [("name", "Celsius")], .nil, none, none, none⟩,
              none) :=
  ⟨by decide,
   (C5_zero_rows_and_first_row tableGdb "7" 7 ⟨[sampleRow 1], []⟩ (by decide)).1 (by decide),
   (C5_zero_rows_and_first_row tableGdb "1" 1 ⟨[sampleRow 1], []⟩ (by decide)).2.2.2.2.2.2.1
     [.ok (sampleRow 1)] _ [] (by decide)
     (List.Forall₂.cons
       ⟨sampleRow 1, .mk [("name", "Celsius")], .nil, rfl, by decide, by decide, by decide⟩
       List.Forall₂.nil)⟩

/-! ### Creation -/

theorem not_statement_of_checks {tr : List Event} {ev : Event} (tID sID oID : Int)
    (h : ev ∈ tr ∨ ev = Event.thingExists tID ∨ ev = Event.sensorExists sID ∨
      ev = Event.observedPropertyExists oID) :
    ev ∈ tr ∨ ev.isStatement = false := by
  rcases h with h | rfl | rfl | rfl
  · exact Or.inl h
  · exact Or.inr rfl
  · exact Or.inr rfl
  · exact Or.inr rfl

theorem postgis_validatesInOrder {σ V : Type} (gdb : GostDatabase σ V) (d : Datastream V)
    (w : World σ) (thing : Thing) (sensor : Sensor) (prop : ObservedProperty)
    (hT : d.Thing = some thing) (hS : d.Sensor = some sensor)
    (hO : d.ObservedProperty = some prop) :
    ValidatesInOrder Postgis.PostDatastream gdb d w thing sensor prop := by
  simp only [ValidatesInOrder, ThingCheckPasses, SensorCheckPasses,
    ObservedPropertyCheckPasses]
  rcases hA : Atoi thing.ID with e1 | tID
  · simp [Postgis.PostDatastream, hT, hA]
    exact fun ev h => Or.inl h
  cases hTE : gdb.ThingExists w.store tID
  · simp [Postgis.PostDatastream, hT, hA, callThingExists, hTE]
    exact fun ev h => not_statement_of_checks tID 0 0 (by tauto)
  rcases hB : Atoi sensor.ID with e2 | sID
  · simp [Postgis.PostDatastream, hT, hS, hA, hB, callThingExists, hTE]
    exact fun ev h => not_statement_of_checks tID 0 0 (by tauto)
  cases hSE : gdb.SensorExists w.store sID
  · simp [Postgis.PostDatastream, hT, hS, hA, hB, callThingExists, callSensorExists, hTE, hSE]
    exact fun ev h => not_statement_of_checks tID sID 0 (by tauto)
  rcases hC : Atoi prop.ID with e3 | oID
  · simp [Postgis.PostDatastream, hT, hS, hO, hA, hB, hC, callThingExists, callSensorExists,
      hTE, hSE]
    exact fun ev h => not_statement_of_checks tID sID 0 (by tauto)
  cases hOE : gdb.ObservedPropertyExists w.store oID
  · simp [Postgis.PostDatastream, hT, hS, hO, hA, hB, hC, callThingExists, callSensorExists,
      callObservedPropertyExists, hTE, hSE, hOE]
    exact fun ev h => not_statement_of_checks tID sID oID (by tauto)
  · simp only [Postgis.PostDatastream, hT, hS, hO, hA, hB, hC, callThingExists,
      callSensorExists, callObservedPropertyExists, hTE, hSE, hOE]
    cases (callQueryRowInt gdb (Postgis.insertStmt gdb d tID sID oID)
      { store := w.store,
        trace := w.trace ++ [Event.thingExists tID] ++ [Event.sensorExists sID] ++
          [Event.observedPropertyExists oID] }).1 <;> simp [hTE, hSE, hOE]

theorem legacy_validatesInOrder {σ V : Type} (gdb : GostDatabase σ V) (d : Datastream V)
    (w : World σ) (thing : Thing) (sensor : Sensor) (prop : ObservedProperty)
    (hT : d.Thing = some thing) (hS : d.Sensor = some sensor)
    (hO : d.ObservedProperty = some prop) :
    ValidatesInOrder PostgisLegacy.PostDatastream gdb d w thing sensor prop := by
  simp only [ValidatesInOrder, ThingCheckPasses, SensorCheckPasses,
    ObservedPropertyCheckPasses]
  rcases hA : Atoi thing.ID with e1 | tID
  · simp [PostgisLegacy.PostDatastream, hT, hS, hO, hA]
    exact fun ev h => Or.inl h
  cases hTE : gdb.ThingExists w.store tID
  · simp [PostgisLegacy.PostDatastream, hT, hS, hO, hA, callThingExists, hTE]
    exact fun ev h => not_statement_of_checks tID 0 0 (by tauto)
  rcases hB : Atoi sensor.ID with e2 | sID
  · simp [PostgisLegacy.PostDatastream, hT, hS, hO, hA, hB, callThingExists, hTE]
    exact fun ev h => not_statement_of_checks tID 0 0 (by tauto)
  cases hSE : gdb.SensorExists w.store sID
  · simp [PostgisLegacy.PostDatastream, hT, hS, hO, hA, hB, callThingExists, callSensorExists, hTE, hSE]
    exact fun ev h => not_statement_of_checks tID sID 0 (by tauto)
  rcases hC : Atoi prop.ID with e3 | oID
  · simp [PostgisLegacy.PostDatastream, hT, hS, hO, hA, hB, hC, callThingExists, callSensorExists,
      hTE, hSE]
    exact fun ev h => not_statement_of_checks tID sID 0 (by tauto)
  cases hOE : gdb.ObservedPropertyExists w.store oID
  · simp [PostgisLegacy.PostDatastream, hT, hS, hO, hA, hB, hC, callThingExists, callSensorExists,
      callObservedPropertyExists, hTE, hSE, hOE]
    exact fun ev h => not_statement_of_checks tID sID oID (by tauto)
  · simp only [PostgisLegacy.PostDatastream, hT, hS, hO, hA, hB, hC, callThingExists,
      callSensorExists, callObservedPropertyExists, hTE, hSE, hOE]
    cases (callQueryRowInt gdb (PostgisLegacy.insertStmt gdb d tID sID oID)
      { store := w.store,
        trace := w.trace ++ [Event.thingExists tID] ++ [Event.sensorExists sID] ++
          [Event.observedPropertyExists oID] }).1 <;> simp [hTE, hSE, hOE]

/-- C1: for a create request whose thing, sensor and observed property are all
non-nil, both revisions of `PostDatastream` validate in the order thing, sensor,
observed property and stop at the first failure: the bad-request error
`Thing does not exist` whenever the thing id does not parse or `ThingExists` is
false, whatever the other ids are; `Sensor does not exist` exactly when the thing
check passed and the sensor check failed; `ObservedProperty does not exist` exactly
when both earlier checks passed and the third failed; in the three failure cases
the later collaborators are not called, no statement (so no INSERT) is handed to
the store, and the store is unchanged. -/
theorem C1_create_validation_order {σ V : Type} (gdb : GostDatabase σ V) (d : Datastream V)
    (w : World σ) (thing : Thing) (sensor : Sensor) (prop : ObservedProperty)
    (hT : d.Thing = some thing) (hS : d.Sensor = some sensor)
    (hO : d.ObservedProperty = some prop) :
    ValidatesInOrder Postgis.PostDatastream gdb d w thing sensor prop ∧
    ValidatesInOrder PostgisLegacy.PostDatastream gdb d w thing sensor prop :=
  ⟨postgis_validatesInOrder gdb d w thing sensor prop hT hS hO,
   legacy_validatesInOrder gdb d w thing sensor prop hT hS hO⟩

/-- Witness for C1: thing 9 does not exist, so the request is refused with the thing
error although its sensor and observed property exist. -/
theorem C1_create_validation_order_witness :
    (Postgis.PostDatastream insertingGdb (sampleDatastream "9" "2" "3") ⟨(), []⟩).1
      = .ret (none, some (.badRequest "Thing does not exist")) := by
  have h := (C1_create_validation_order insertingGdb (sampleDatastream "9" "2" "3") ⟨(), []⟩
    ⟨"9"⟩ ⟨"2"⟩ ⟨"3"⟩ rfl rfl rfl).1
  simp only [ValidatesInOrder] at h
  refine (h.1 ?_).1
  rintro ⟨tID, h1, h2⟩
  have h9 : Atoi "9" = .ok 9 := by decide
  rw [h9] at h1
  injection h1 with h1
  subst h1
  revert h2
  decide

theorem toDigitsCore_ne_nil (b : Nat) : ∀ (f n : Nat) (ds : List Char), ds ≠ [] →
    Nat.toDigitsCore b f n ds ≠ [] := by
  intro f
  induction f with
  | zero => intro n ds h; simpa [Nat.toDigitsCore] using h
  | succ f ih =>
    intro n ds _
    unfold Nat.toDigitsCore
    simp only
    split
    · simp
    · exact ih _ _ (by simp)

theorem nat_repr_ne_empty (n : Nat) : Nat.repr n ≠ "" := by
  intro h
  have h2 := congrArg String.data h
  simp only [Nat.repr, List.asString] at h2
  revert h2
  unfold Nat.toDigits Nat.toDigitsCore
  simp only
  split
  · simp
  · exact toDigitsCore_ne_nil 10 _ _ _ (by simp)

theorem Itoa_ne_empty (n : Int) : Itoa n ≠ "" := by
  cases n with
  | ofNat m => exact nat_repr_ne_empty m
  | negSucc m =>
    intro h
    have h2 := congrArg String.data h
    simp [Itoa] at h2

/-- C2: for a create request that passes the three existence checks and whose
INSERT succeeds with generated id `n`, both revisions of `PostDatastream` return,
with a nil error, an entity whose id is the decimal text of `n` (so not empty),
whose description, unit of measurement and observed area are those of the input,
and whose thing, sensor and observed property are nil. -/
theorem C2_create_returns_stripped_entity {σ V : Type} (gdb : GostDatabase σ V)
    (d : Datastream V) (w : World σ) (thing : Thing) (sensor : Sensor)
    (prop : ObservedProperty) (tID sID oID : Int)
    (hT : d.Thing = some thing) (hS : d.Sensor = some sensor)
    (hO : d.ObservedProperty = some prop)
    (hA : Atoi thing.ID = .ok tID) (hTE : gdb.ThingExists w.store tID = true)
    (hB : Atoi sensor.ID = .ok sID) (hSE : gdb.SensorExists w.store sID = true)
    (hC : Atoi prop.ID = .ok oID) (hOE : gdb.ObservedPropertyExists w.store oID = true) :
    (∀ n, (gdb.Db.QueryRowInt (Postgis.insertStmt gdb d tID sID oID) w.store).1 = .ok n →
      ∃ out, (Postgis.PostDatastream gdb d w).1 = .ret (some out, none) ∧
        out.ID = Itoa n ∧ out.ID ≠ "" ∧ out.Description = d.Description ∧
        out.UnitOfMeasurement = d.UnitOfMeasurement ∧ out.ObservedArea = d.ObservedArea ∧
        out.Thing = none ∧ out.Sensor = none ∧ out.ObservedProperty = none) ∧
    (∀ n, (gdb.Db.QueryRowInt (PostgisLegacy.insertStmt gdb d tID sID oID) w.store).1 = .ok n →
      ∃ out, (PostgisLegacy.PostDatastream gdb d w).1 = .ret (some out, none) ∧
        out.ID = Itoa n ∧ out.ID ≠ "" ∧ out.Description = d.Description ∧
        out.UnitOfMeasurement = d.UnitOfMeasurement ∧ out.ObservedArea = d.ObservedArea ∧
        out.Thing = none ∧ out.Sensor = none ∧ out.ObservedProperty = none) := by
  constructor
  · intro n hn
    refine ⟨{ d with ID := Itoa n, Thing := none, Sensor := none, ObservedProperty := none },
      ?_, rfl, Itoa_ne_empty n, rfl, rfl, rfl, rfl, rfl, rfl⟩
    simp [Postgis.PostDatastream, hT, hS, hO, hA, hB, hC, callThingExists, callSensorExists,
      callObservedPropertyExists, callQueryRowInt, hTE, hSE, hOE, hn]
  · intro n hn
    refine ⟨{ d with ID := Itoa n, Thing := none, Sensor := none, ObservedProperty := none },
      ?_, rfl, Itoa_ne_empty n, rfl, rfl, rfl, rfl, rfl, rfl⟩
    simp [PostgisLegacy.PostDatastream, hT, hS, hO, hA, hB, hC, callThingExists,
      callSensorExists, callObservedPropertyExists, callQueryRowInt, hTE, hSE, hOE, hn]

/-- Witness for C2: the store generates id 42 for a request with existing thing 1,
sensor 2 and observed property 3. -/
theorem C2_create_returns_stripped_entity_witness :
    ∃ out, (Postgis.PostDatastream insertingGdb (sampleDatastream "1" "2" "3") ⟨(), []⟩).1
        = .ret (some out, none) ∧
      out.ID = "42" ∧ out.Description = "temperature" ∧ out.Thing = none := by
  obtain ⟨out, h1, h2, _, h4, _, _, h7, _, _⟩ :=
    (C2_create_returns_stripped_entity insertingGdb (sampleDatastream "1" "2" "3") ⟨(), []⟩
      ⟨"1"⟩ ⟨"2"⟩ ⟨"3"⟩ 1 2 3 rfl rfl rfl (by decide) (by decide) (by decide) (by decide)
      (by decide) (by decide)).1 42 rfl
  exact ⟨out, h1, h2.trans (by decide), h4, h7⟩

theorem geom_ne_null (t : String) : "public.ST_GeomFromGeoJSON('" ++ t ++ "')" ≠ "NULL" := by
  intro h
  have h2 := congrArg String.data h
  simp at h2

theorem legacy_geom_ne_null (t : String) : "ST_GeomFromGeoJSON('" ++ t ++ "')" ≠ "NULL" := by
  intro h
  have h2 := congrArg String.data h
  simp at h2

theorem len_eq_zero_iff {V : Type} (m : GoMap V) : m.len = 0 ↔ m = .nil ∨ m = .mk [] := by
  cases m with
  | nil => simp [GoMap.len]
  | mk es => cases es <;> simp [GoMap.len]

/-- C7: in both revisions, a create request that passes the three checks hands the
store one statement, the INSERT, whose text holds at the geometry slot a text
`geom` that is the literal `NULL` exactly when the observed area is empty (the nil
map or a map without entries), and otherwise the call of `ST_GeomFromGeoJSON`
(schema-qualified with `public.` in `src/src`) on the JSON text of the observed
area, spliced between single quotes as it is; the bound values are the description,
the JSON bytes of the unit of measurement, and the thing, sensor and
observed-property ids, in that order, and nothing else. -/
theorem C7_insert_geometry_slot {σ V : Type} (gdb : GostDatabase σ V)
    (d : Datastream V) (w : World σ) (thing : Thing) (sensor : Sensor)
    (prop : ObservedProperty) (tID sID oID : Int)
    (hT : d.Thing = some thing) (hS : d.Sensor = some sensor)
    (hO : d.ObservedProperty = some prop)
    (hA : Atoi thing.ID = .ok tID) (hTE : gdb.ThingExists w.store tID = true)
    (hB : Atoi sensor.ID = .ok sID) (hSE : gdb.SensorExists w.store sID = true)
    (hC : Atoi prop.ID = .ok oID) (hOE : gdb.ObservedPropertyExists w.store oID = true) :
    (∃ geom : String,
      (Postgis.PostDatastream gdb d w).2.trace
        = w.trace ++ [.thingExists tID, .sensorExists sID, .observedPropertyExists oID,
            .queryRow
              ⟨"INSERT INTO " ++ gdb.Schema ++ ".datastream (description, unitofmeasurement, observedarea, thing_id, sensor_id, observedproperty_id) VALUES ($1, $2, " ++ geom ++ ", $3, $4, $5) RETURNING id",
               [.str d.Description, .bytes (marshalBytes gdb d.UnitOfMeasurement),
                .int tID, .int sID, .int oID]⟩] ∧
      (geom = "NULL" ↔ d.ObservedArea.len = 0) ∧
      (d.ObservedArea.len = 0 ↔ d.ObservedArea = .nil ∨ d.ObservedArea = .mk []) ∧
      (d.ObservedArea.len ≠ 0 →
        geom = "public.ST_GeomFromGeoJSON('"
                 ++ bytesToString (marshalBytes gdb d.ObservedArea) ++ "')") ∧
      (∀ text, d.ObservedArea.len ≠ 0 → gdb.Marshal d.ObservedArea = .ok text →
        geom = "public.ST_GeomFromGeoJSON('" ++ text ++ "')") ∧
      (∀ text, gdb.Marshal d.UnitOfMeasurement = .ok text →
        marshalBytes gdb d.UnitOfMeasurement = some text)) ∧
    (∃ geom : String,
      (PostgisLegacy.PostDatastream gdb d w).2.trace
        = w.trace ++ [.thingExists tID, .sensorExists sID, .observedPropertyExists oID,
            .queryRow
              ⟨"INSERT INTO " ++ gdb.Schema ++ ".datastream (description, unitofmeasurement, observedarea, thing_id, sensor_id, observerproperty_id) VALUES ($1, $2, " ++ geom ++ ", $3, $4, $5) RETURNING id",
               [.str d.Description, .bytes (marshalBytes gdb d.UnitOfMeasurement),
                .int tID, .int sID, .int oID]⟩] ∧
      (geom = "NULL" ↔ d.ObservedArea.len = 0) ∧
      (d.ObservedArea.len = 0 ↔ d.ObservedArea = .nil ∨ d.ObservedArea = .mk []) ∧
      (d.ObservedArea.len ≠ 0 →
        geom = "ST_GeomFromGeoJSON('"
                 ++ bytesToString (marshalBytes gdb d.ObservedArea) ++ "')") ∧
      (∀ text, d.ObservedArea.len ≠ 0 → gdb.Marshal d.ObservedArea = .ok text →
        geom = "ST_GeomFromGeoJSON('" ++ text ++ "')") ∧
      (∀ text, gdb.Marshal d.UnitOfMeasurement = .ok text →
        marshalBytes gdb d.UnitOfMeasurement = some text)) := by
  have hbytes : ∀ (m : GoMap V) text, gdb.Marshal m = .ok text →
      marshalBytes gdb m = some text := by
    intro m text h
    simp [marshalBytes, h]
  constructor
  · refine ⟨Postgis.geomText gdb d, ?_, ?_, len_eq_zero_iff _, ?_, ?_, hbytes _⟩
    · simp only [Postgis.PostDatastream, hT, hS, hO, hA, hB, hC, callThingExists,
        callSensorExists, callObservedPropertyExists, callQueryRowInt, hTE, hSE, hOE]
      cases (gdb.Db.QueryRowInt (Postgis.insertStmt gdb d tID sID oID) w.store).1 <;>
        simp [Postgis.insertStmt]
    · by_cases hl : d.ObservedArea.len = 0
      · simp [Postgis.geomText, hl]
      · simp only [Postgis.geomText, hl, ne_eq, not_false_eq_true, if_true, iff_false]
        exact geom_ne_null _
    · intro hl
      simp [Postgis.geomText, hl]
    · intro text hl hm
      simp [Postgis.geomText, hl, hbytes _ _ hm, bytesToString]
  · refine ⟨PostgisLegacy.geomText gdb d, ?_, ?_, len_eq_zero_iff _, ?_, ?_, hbytes _⟩
    · simp only [PostgisLegacy.PostDatastream, hT, hS, hO, hA, hB, hC, callThingExists,
        callSensorExists, callObservedPropertyExists, callQueryRowInt, hTE, hSE, hOE]
      cases (gdb.Db.QueryRowInt (PostgisLegacy.insertStmt gdb d tID sID oID) w.store).1 <;>
        simp [PostgisLegacy.insertStmt]
    · by_cases hl : d.ObservedArea.len = 0
      · simp [PostgisLegacy.geomText, hl]
      · simp only [PostgisLegacy.geomText, hl, ne_eq, not_false_eq_true, if_true, iff_false]
        exact legacy_geom_ne_null _
    · intro hl
      simp [PostgisLegacy.geomText, hl]
    · intro text hl hm
      simp [PostgisLegacy.geomText, hl, hbytes _ _ hm, bytesToString]

/-- Witness for C7: a request with a one-entry observed area; the statement that
reaches the store carries the JSON text of the area inside the geometry call. -/
theorem C7_insert_geometry_slot_witness :
    (Postgis.PostDatastream insertingGdb sampleAreaDatastream ⟨(), []⟩).2.trace
      = [.thingExists 1, .sensorExists 2, .observedPropertyExists 3,
         .queryRow
           ⟨"INSERT INTO v1.datastream (description, unitofmeasurement, observedarea, thing_id, sensor_id, observedproperty_id) VALUES ($1, $2, public.ST_GeomFromGeoJSON('\x7b\"type\":\"Point\"\x7d'), $3, $4, $5) RETURNING id",
            [.str "temperature", .bytes (some "\x7b\"name\":\"Celsius\"\x7d"),
             .int 1, .int 2, .int 3]⟩] := by
  obtain ⟨geom, h1, _, _, _, h5, _⟩ :=
    (C7_insert_geometry_slot insertingGdb sampleAreaDatastream ⟨(), []⟩
      ⟨"1"⟩ ⟨"2"⟩ ⟨"3"⟩ 1 2 3 rfl rfl rfl (by decide) (by decide) (by decide) (by decide)
      (by decide) (by decide)).1
  have hg := h5 "\x7b\"type\":\"Point\"\x7d" (by decide) (by decide)
  rw [h1, hg]
  rfl

end Gost
